import Mathlib

/-!
Verification development for the ExpenseTracker backend.

The definitions below are a shallow embedding of the Node/Express +
Mongoose backend:

* `models/Income.js`, `models/Expense.js` — document shapes;
* `controllers/dashboardController.js` (`getDashboardData`) — the
  dashboard aggregation;
* `controllers/incomeController.js` (`addIncome`, `getAllIncome`,
  `deleteIncome`) and `controllers/expenseController.js` (`addExpense`,
  `getAllExpense`, `deleteExpense`) — the CRUD handlers.

Modelling conventions:

* MongoDB ObjectIds (both `_id` and `userId`) are `Nat`.
* Dates are millisecond timestamps, modelled as `Int` (the JS code
  compares `Date` values numerically: `date >= new Date(Date.now() - k)`
  and `(a, b) => b.date - a.date`).
* Monetary amounts are `Int`; every claim settled here is about the
  structure of the computation, not about floating-point rounding.
* A Mongo collection is a `List` of documents in insertion order.
  `find(q).sort({date: -1})` is modelled as filtering then stably
  sorting by date descending (V8's `Array.prototype.sort` is stable,
  and a stable model of the Mongo sort fixes the tie order that Mongo
  leaves unspecified; no settled claim depends on tie order inside one
  collection).
* Request-body fields are `Option`-valued; `none` stands for a field
  that is absent or empty, i.e. falsy under the controller's
  `if (!field)` check, and for `amount` the value `0` is also falsy.
-/

namespace ExpenseTracker

/-- The `type` tag ("income" / "expense") added to each entry of
`recentTransactions` by `getDashboardData`. -/
inductive Kind where
  | income
  | expense
deriving DecidableEq, Repr

/-- A document of the `Income` collection (`models/Income.js`):
`{_id, userId, icon, source, amount, date}` plus Mongoose timestamps,
which no settled claim mentions. -/
structure IncomeDoc where
  id : Nat
  userId : Nat
  icon : Option String
  source : String
  amount : Int
  date : Int
deriving DecidableEq, Repr

/-- A document of the `Expense` collection (`models/Expense.js`):
`{_id, userId, icon, category, amount, date}`. -/
structure ExpenseDoc where
  id : Nat
  userId : Nat
  icon : Option String
  category : String
  amount : Int
  date : Int
deriving DecidableEq, Repr

/-- The record store: the two MongoDB collections, in insertion order. -/
structure Db where
  incomes : List IncomeDoc
  expenses : List ExpenseDoc
deriving DecidableEq, Repr

/-- One entry of `recentTransactions`: `{...txn.toObject(), type}`.
`label` carries `source` for income documents and `category` for
expense documents. -/
structure TaggedTx where
  id : Nat
  userId : Nat
  icon : Option String
  label : String
  amount : Int
  date : Int
  type : Kind
deriving DecidableEq, Repr

/-- `{...txn.toObject(), type: "income"}`. -/
def tagIncome (t : IncomeDoc) : TaggedTx :=
  ⟨t.id, t.userId, t.icon, t.source, t.amount, t.date, Kind.income⟩

/-- `{...txn.toObject(), type: "expense"}`. -/
def tagExpense (t : ExpenseDoc) : TaggedTx :=
  ⟨t.id, t.userId, t.icon, t.category, t.amount, t.date, Kind.expense⟩

/-- Stable insertion step for date-descending sort: `x` is placed
before the first element whose key is strictly smaller, hence after
all earlier elements with an equal key. -/
def insertD {α : Type} (key : α → Int) (x : α) : List α → List α
  | [] => [x]
  | y :: ys => if key x < key y then y :: insertD key x ys else x :: y :: ys

/-- Stable sort by `key` descending; models both `sort({date: -1})` on a
query and the (stable) JS `Array.prototype.sort((a, b) => b.date - a.date)`. -/
def sortD {α : Type} (key : α → Int) : List α → List α
  | [] => []
  | x :: xs => insertD key x (sortD key xs)

/-- `30 * 24 * 60 * 60 * 1000` milliseconds, from the controller. -/
def thirtyDaysMs : Int := 30 * 24 * 60 * 60 * 1000

/-- `60 * 24 * 60 * 60 * 1000` milliseconds, from the controller. -/
def sixtyDaysMs : Int := 60 * 24 * 60 * 60 * 1000

/-- `Income.find({userId})`, the owner-scoped slice of the collection. -/
def incomesByUser (db : Db) (userId : Nat) : List IncomeDoc :=
  db.incomes.filter (fun r => r.userId == userId)

/-- `Expense.find({userId})`, the owner-scoped slice of the collection. -/
def expensesByUser (db : Db) (userId : Nat) : List ExpenseDoc :=
  db.expenses.filter (fun r => r.userId == userId)

/-- `Income.aggregate([{$match: {userId}}, {$group: {_id: null, total:
{$sum: "$amount"}}}])`: an empty result array when no document matches,
otherwise a one-element array holding the sum. -/
def incomeTotalAgg (db : Db) (userId : Nat) : List Int :=
  let matched := incomesByUser db userId
  if matched.isEmpty then [] else [matched.foldl (fun s r => s + r.amount) 0]

/-- The identical aggregation pipeline on the `Expense` collection. -/
def expenseTotalAgg (db : Db) (userId : Nat) : List Int :=
  let matched := expensesByUser db userId
  if matched.isEmpty then [] else [matched.foldl (fun s r => s + r.amount) 0]

/-- `last30DaysExpenses` / `last60DaysIncome` response fragments:
`{total, transactions}`. -/
structure ExpenseWindow where
  total : Int
  transactions : List ExpenseDoc
deriving DecidableEq, Repr

structure IncomeWindow where
  total : Int
  transactions : List IncomeDoc
deriving DecidableEq, Repr

/-- The JSON body built by `res.json({...})` in `getDashboardData`. -/
structure Summary where
  totalBalance : Int
  totalIncome : Int
  totalExpenses : Int
  last30DaysExpenses : ExpenseWindow
  last60DaysIncome : IncomeWindow
  recentTransactions : List TaggedTx
deriving DecidableEq, Repr

/-- `controllers/dashboardController.js` `getDashboardData`.  `userId` is
`req.user.id`; `now` is the value of `Date.now()` during the request
(the source reads the wall clock; the embedding threads it as a
parameter).  Mirrors the source statement by statement:

* `totalIncome` / `totalExpense`: the two aggregation pipelines;
* `last60DaysIncomeTransactions`: `Income.find({userId, date: {$gte:
  new Date(Date.now() - 60*24*60*60*1000)}}).sort({date: -1})`, and
  `incomeLast60Days` its `reduce((sum, t) => sum + t.amount, 0)`;
* `last30DaysExpenseTransactions` / `expensesLast30Days`: the same with
  the `Expense` collection and 30 days;
* `lastTransactions`: 5 most recent of each kind, tagged, concatenated
  income-first, then `.sort((a, b) => b.date - a.date)`;
* the response object, with `totalIncome[0]?.total || 0` modelled as
  `head?.getD 0` (a present total of `0` is falsy in JS but `||` still
  yields `0`, so the two agree). -/
def getDashboardData (db : Db) (userId : Nat) (now : Int) : Summary :=
  let totalIncome := incomeTotalAgg db userId
  let totalExpense := expenseTotalAgg db userId
  let last60DaysIncomeTransactions :=
    sortD (fun r : IncomeDoc => r.date)
      (db.incomes.filter
        (fun r => r.userId == userId && decide (now - sixtyDaysMs ≤ r.date)))
  let incomeLast60Days :=
    last60DaysIncomeTransactions.foldl (fun s t => s + t.amount) 0
  let last30DaysExpenseTransactions :=
    sortD (fun r : ExpenseDoc => r.date)
      (db.expenses.filter
        (fun r => r.userId == userId && decide (now - thirtyDaysMs ≤ r.date)))
  let expensesLast30Days :=
    last30DaysExpenseTransactions.foldl (fun s t => s + t.amount) 0
  let lastTransactions :=
    sortD (fun t : TaggedTx => t.date)
      (((sortD (fun r : IncomeDoc => r.date) (incomesByUser db userId)).take 5).map
          tagIncome ++
        ((sortD (fun r : ExpenseDoc => r.date) (expensesByUser db userId)).take 5).map
          tagExpense)
  { totalBalance := totalIncome.head?.getD 0 - totalExpense.head?.getD 0
    totalIncome := totalIncome.head?.getD 0
    totalExpenses := totalExpense.head?.getD 0
    last30DaysExpenses :=
      ⟨expensesLast30Days, last30DaysExpenseTransactions⟩
    last60DaysIncome :=
      ⟨incomeLast60Days, last60DaysIncomeTransactions⟩
    recentTransactions := lastTransactions }

/-- The dashboard request as a state transformer on the store: the
handler only issues reads, so it returns the store unchanged alongside
the response. -/
def getDashboardRun (db : Db) (userId : Nat) (now : Int) : Summary × Db :=
  (getDashboardData db userId now, db)

/-- `GET /api/v1/income/get` (`getAllIncome` in
`controllers/incomeController.js`): `Income.find({userId}).sort({date: -1})`. -/
def getAllIncome (db : Db) (userId : Nat) : List IncomeDoc :=
  sortD (fun r : IncomeDoc => r.date) (incomesByUser db userId)

/-- `GET /api/v1/expense/get` (`getAllExpense` in
`controllers/expenseController.js`): `Expense.find({userId}).sort({date: -1})`. -/
def getAllExpense (db : Db) (userId : Nat) : List ExpenseDoc :=
  sortD (fun r : ExpenseDoc => r.date) (expensesByUser db userId)

/-- `Income.findByIdAndDelete(id)` restricted to its effect on the
collection: remove the document whose `_id` matches (Mongo `_id`s are
unique, so at most the first match), or nothing when no document
matches. -/
def removeIncomeById (id : Nat) : List IncomeDoc → List IncomeDoc
  | [] => []
  | r :: rs => if r.id == id then rs else r :: removeIncomeById id rs

def removeExpenseById (id : Nat) : List ExpenseDoc → List ExpenseDoc
  | [] => []
  | r :: rs => if r.id == id then rs else r :: removeExpenseById id rs

/-- `DELETE /api/v1/income/:id` (`deleteIncome`): the handler runs
`Income.findByIdAndDelete(req.params.id)` — never consulting
`req.user` (the `caller` parameter below) — and always answers
`{message: "Income deleted successfully"}`, also when no document has
that `_id`. -/
def deleteIncome (db : Db) (caller : Nat) (id : Nat) : Db × String :=
  ({ db with incomes := removeIncomeById id db.incomes },
    "Income deleted successfully")

/-- `DELETE /api/v1/expense/:id` (`deleteExpense`), identical shape. -/
def deleteExpense (db : Db) (caller : Nat) (id : Nat) : Db × String :=
  ({ db with expenses := removeExpenseById id db.expenses },
    "Expense deleted successfully")

/-- Body of `POST /api/v1/income/add`.  `none` stands for an absent or
falsy field (missing key, `null`, empty string; for `amount` the JS
number `0` is also falsy and is kept as `some 0` here so the
truthiness check can see it). -/
structure IncomeBody where
  icon : Option String
  source : Option String
  amount : Option Int
  date : Option Int
deriving DecidableEq, Repr

structure ExpenseBody where
  icon : Option String
  category : Option String
  amount : Option Int
  date : Option Int
deriving DecidableEq, Repr

/-- JS truthiness of the destructured `source` / `category` string:
`!s` holds for a missing field and for the empty string. -/
def truthyStr : Option String → Bool
  | none => false
  | some s => !(s == "")

/-- JS truthiness of the destructured `amount` number: `!a` holds for a
missing field and for `0`; every other number, negative included, is
truthy. -/
def truthyNum : Option Int → Bool
  | none => false
  | some a => !(a == 0)

/-- JS truthiness of the destructured `date` value: holds exactly when
the field carries a (nonempty) value. -/
def truthyDate : Option Int → Bool
  | none => false
  | some _ => true

/-- Outcome of a create handler: `ok` carries the saved document (the
200 response body) and the updated store; `badRequest` is the
`res.status(400).json({message})` branch. -/
inductive AddResult (δ : Type) where
  | ok (doc : δ) (db : Db)
  | badRequest (msg : String)
deriving DecidableEq, Repr

def AddResult.isOk {δ : Type} : AddResult δ → Bool
  | .ok _ _ => true
  | .badRequest _ => false

/-- `addIncome` (`controllers/incomeController.js`): destructure
`{icon, source, amount, date}` from the body, answer 400 `"All fields
are required"` when `!source || !amount || !date`, otherwise save
`new Income({userId, icon, source, amount, date: new Date(date)})`.
`freshId` is the `_id` Mongo assigns on save. -/
def addIncome (db : Db) (userId : Nat) (freshId : Nat)
    (body : IncomeBody) : AddResult IncomeDoc :=
  if !truthyStr body.source || !truthyNum body.amount || !truthyDate body.date then
    .badRequest "All fields are required"
  else
    let doc : IncomeDoc :=
      ⟨freshId, userId, body.icon, body.source.getD "", body.amount.getD 0,
        body.date.getD 0⟩
    .ok doc { db with incomes := db.incomes ++ [doc] }

/-- `addExpense` (`controllers/expenseController.js`), with `category`
in place of `source`. -/
def addExpense (db : Db) (userId : Nat) (freshId : Nat)
    (body : ExpenseBody) : AddResult ExpenseDoc :=
  if !truthyStr body.category || !truthyNum body.amount || !truthyDate body.date then
    .badRequest "All fields are required"
  else
    let doc : ExpenseDoc :=
      ⟨freshId, userId, body.icon, body.category.getD "", body.amount.getD 0,
        body.date.getD 0⟩
    .ok doc { db with expenses := db.expenses ++ [doc] }

section SortLemmas

variable {α : Type} (key : α → Int)

theorem insertD_perm (x : α) (l : List α) :
    List.Perm (insertD key x l) (x :: l) := by
  induction l with
  | nil => simp [insertD]
  | cons y ys ih =>
    unfold insertD
    by_cases h : key x < key y
    · simp only [h, if_pos]
      exact List.Perm.trans (List.Perm.cons y ih) (List.Perm.swap x y ys)
    · simp [h]

theorem sortD_perm (l : List α) : List.Perm (sortD key l) l := by
  induction l with
  | nil => simp [sortD]
  | cons x xs ih =>
    exact List.Perm.trans (insertD_perm key x (sortD key xs)) (List.Perm.cons x ih)

theorem mem_sortD {z : α} {l : List α} : z ∈ sortD key l ↔ z ∈ l :=
  (sortD_perm key l).mem_iff

theorem length_sortD (l : List α) : (sortD key l).length = l.length :=
  (sortD_perm key l).length_eq

/-- The ordering established by `sortD`, parametrised by a relation `Q`
on tie-broken pairs: keys are non-increasing, and any two entries with
equal keys still satisfy `Q` in output order (stability). -/
def SortedRel (Q : α → α → Prop) (a b : α) : Prop :=
  key b ≤ key a ∧ (key a = key b → Q a b)

theorem pairwise_insertD (Q : α → α → Prop) (x : α) (l : List α)
    (hl : l.Pairwise (SortedRel key Q))
    (hx : ∀ y ∈ l, key x = key y → Q x y) :
    (insertD key x l).Pairwise (SortedRel key Q) := by
  induction l with
  | nil => simp [insertD, List.pairwise_cons]
  | cons y ys ih =>
    rcases List.pairwise_cons.mp hl with ⟨hy, hys⟩
    unfold insertD
    by_cases h : key x < key y
    · simp only [h, if_pos]
      refine List.pairwise_cons.mpr ⟨?_, ?_⟩
      · intro z hz
        rcases List.mem_cons.mp ((insertD_perm key x ys).mem_iff.mp hz) with
          hz | hz
        · subst hz
          exact ⟨le_of_lt h, fun heq => absurd heq (ne_of_gt h)⟩
        · exact hy z hz
      · exact ih hys (fun y hy' => hx y (List.mem_cons_of_mem _ hy'))
    · simp only [h, if_neg, not_false_iff]
      have hxy : key y ≤ key x := le_of_not_lt h
      refine List.pairwise_cons.mpr ⟨?_, hl⟩
      intro z hz
      rcases List.mem_cons.mp hz with hz | hz
      · subst hz
        exact ⟨hxy, hx z (List.mem_cons_self _ _)⟩
      · exact ⟨le_trans (hy z hz).1 hxy,
          fun heq => hx z (List.mem_cons_of_mem _ hz) heq⟩

theorem pairwise_sortD (Q : α → α → Prop) (l : List α)
    (hl : l.Pairwise (fun a b => key a = key b → Q a b)) :
    (sortD key l).Pairwise (SortedRel key Q) := by
  induction l with
  | nil => simp [sortD]
  | cons x xs ih =>
    rcases List.pairwise_cons.mp hl with ⟨hx, hxs⟩
    exact pairwise_insertD key Q x (sortD key xs) (ih hxs)
      (fun y hy => hx y ((sortD_perm key xs).mem_iff.mp hy))

end SortLemmas

section ProjectionLemmas

theorem incomesByUser_def (db : Db) (uid : Nat) :
    incomesByUser db uid = db.incomes.filter (fun r => r.userId == uid) := rfl

theorem expensesByUser_def (db : Db) (uid : Nat) :
    expensesByUser db uid = db.expenses.filter (fun r => r.userId == uid) := rfl

theorem totalIncome_proj (db : Db) (uid : Nat) (now : Int) :
    (getDashboardData db uid now).totalIncome =
      (incomeTotalAgg db uid).head?.getD 0 := rfl

theorem totalExpenses_proj (db : Db) (uid : Nat) (now : Int) :
    (getDashboardData db uid now).totalExpenses =
      (expenseTotalAgg db uid).head?.getD 0 := rfl

theorem last60_proj (db : Db) (uid : Nat) (now : Int) :
    (getDashboardData db uid now).last60DaysIncome =
      ⟨(sortD (fun r : IncomeDoc => r.date)
            (db.incomes.filter
              (fun r => r.userId == uid && decide (now - sixtyDaysMs ≤ r.date)))).foldl
          (fun s t => s + t.amount) 0,
        sortD (fun r : IncomeDoc => r.date)
          (db.incomes.filter
            (fun r => r.userId == uid && decide (now - sixtyDaysMs ≤ r.date)))⟩ := rfl

theorem last30_proj (db : Db) (uid : Nat) (now : Int) :
    (getDashboardData db uid now).last30DaysExpenses =
      ⟨(sortD (fun r : ExpenseDoc => r.date)
            (db.expenses.filter
              (fun r => r.userId == uid && decide (now - thirtyDaysMs ≤ r.date)))).foldl
          (fun s t => s + t.amount) 0,
        sortD (fun r : ExpenseDoc => r.date)
          (db.expenses.filter
            (fun r => r.userId == uid && decide (now - thirtyDaysMs ≤ r.date)))⟩ := rfl

theorem recent_proj (db : Db) (uid : Nat) (now : Int) :
    (getDashboardData db uid now).recentTransactions =
      sortD (fun t : TaggedTx => t.date)
        (((sortD (fun r : IncomeDoc => r.date) (incomesByUser db uid)).take 5).map
            tagIncome ++
          ((sortD (fun r : ExpenseDoc => r.date) (expensesByUser db uid)).take 5).map
            tagExpense) := rfl

/-- Full definitional expansion of the response object. -/
theorem getDashboardData_expand (db : Db) (uid : Nat) (now : Int) :
    getDashboardData db uid now =
      ⟨(incomeTotalAgg db uid).head?.getD 0 -
          (expenseTotalAgg db uid).head?.getD 0,
        (incomeTotalAgg db uid).head?.getD 0,
        (expenseTotalAgg db uid).head?.getD 0,
        ⟨(sortD (fun r : ExpenseDoc => r.date)
              (db.expenses.filter
                (fun r => r.userId == uid &&
                  decide (now - thirtyDaysMs ≤ r.date)))).foldl
            (fun s t => s + t.amount) 0,
          sortD (fun r : ExpenseDoc => r.date)
            (db.expenses.filter
              (fun r => r.userId == uid &&
                decide (now - thirtyDaysMs ≤ r.date)))⟩,
        ⟨(sortD (fun r : IncomeDoc => r.date)
              (db.incomes.filter
                (fun r => r.userId == uid &&
                  decide (now - sixtyDaysMs ≤ r.date)))).foldl
            (fun s t => s + t.amount) 0,
          sortD (fun r : IncomeDoc => r.date)
            (db.incomes.filter
              (fun r => r.userId == uid &&
                decide (now - sixtyDaysMs ≤ r.date)))⟩,
        sortD (fun t : TaggedTx => t.date)
          (((sortD (fun r : IncomeDoc => r.date)
                  (incomesByUser db uid)).take 5).map tagIncome ++
            ((sortD (fun r : ExpenseDoc => r.date)
                  (expensesByUser db uid)).take 5).map tagExpense)⟩ := rfl

/-- Splitting a conjunctive filter into two passes. -/
theorem filter_and_split {α : Type} (p q : α → Bool) (l : List α) :
    l.filter (fun a => p a && q a) = (l.filter p).filter q := by
  induction l with
  | nil => rfl
  | cons x xs ih =>
    by_cases hp : p x <;> by_cases hq : q x <;>
      simp [List.filter_cons, hp, hq, ih]

end ProjectionLemmas

section Claims

/-- Concrete store refuting claim C1: one owner with six income records
and no expense records. -/
def dbSixIncomes : Db :=
  ⟨[⟨1, 1, none, "a", 1, 1⟩, ⟨2, 1, none, "b", 1, 2⟩, ⟨3, 1, none, "c", 1, 3⟩,
      ⟨4, 1, none, "d", 1, 4⟩, ⟨5, 1, none, "e", 1, 5⟩, ⟨6, 1, none, "f", 1, 6⟩],
    []⟩

/-- Claim C1, as stated, is false: with six income records and no
expense records the claimed length is `min 10 (6 + 0) = 6`, but the
controller fetches at most 5 per kind, so `recentTransactions` has
length 5. -/
theorem recentTransactions_length_claim_cex :
    ¬ ((getDashboardData dbSixIncomes 1 0).recentTransactions.length =
        min 10
          ((incomesByUser dbSixIncomes 1).length +
            (expensesByUser dbSixIncomes 1).length)) := by
  decide

/-- Claim C1 (amended): for every owner, `recentTransactions` has
length `min 5 incomeCount + min 5 expenseCount`, where the counts are
the owner's total numbers of Income and Expense records. -/
theorem recentTransactions_length_eq (db : Db) (uid : Nat) (now : Int) :
    (getDashboardData db uid now).recentTransactions.length =
      min 5 (incomesByUser db uid).length +
        min 5 (expensesByUser db uid).length := by
  rw [recent_proj, length_sortD, List.length_append, List.length_map,
    List.length_map, List.length_take, List.length_take, length_sortD,
    length_sortD]

/-- Claim C2: `recentTransactions` is sorted non-increasing by `date`,
and for any two entries with equal `date`, an expense-tagged entry
never precedes an income-tagged one (the stable final sort preserves
the Income-before-Expense concatenation order on ties). -/
theorem recentTransactions_sorted_income_first (db : Db) (uid : Nat) (now : Int) :
    (getDashboardData db uid now).recentTransactions.Pairwise
      (fun a b => b.date ≤ a.date ∧
        (a.date = b.date → ¬(a.type = Kind.expense ∧ b.type = Kind.income))) := by
  rw [recent_proj]
  have hQ :
      (((sortD (fun r : IncomeDoc => r.date) (incomesByUser db uid)).take 5).map
            tagIncome ++
          ((sortD (fun r : ExpenseDoc => r.date) (expensesByUser db uid)).take 5).map
            tagExpense).Pairwise
        (fun a b : TaggedTx =>
          a.date = b.date → ¬(a.type = Kind.expense ∧ b.type = Kind.income)) := by
    apply List.pairwise_append.mpr
    refine ⟨?_, ?_, ?_⟩
    · apply List.pairwise_of_forall_mem_list
      intro a ha b _ _
      rcases List.mem_map.mp ha with ⟨x, _, rfl⟩
      simp [tagIncome]
    · apply List.pairwise_of_forall_mem_list
      intro a _ b hb _
      rcases List.mem_map.mp hb with ⟨x, _, rfl⟩
      simp [tagExpense]
    · intro a _ b hb _
      rcases List.mem_map.mp hb with ⟨x, _, rfl⟩
      simp [tagExpense]
  exact List.Pairwise.imp (fun hab => ⟨hab.1, hab.2⟩)
    (pairwise_sortD (fun t : TaggedTx => t.date) _ _ hQ)

/-- Claim C3: in every computed summary, `totalBalance` is exactly
`totalIncome - totalExpenses` — the response computes all three from
the same two aggregation results. -/
theorem totalBalance_eq_income_sub_expenses (db : Db) (uid : Nat) (now : Int) :
    (getDashboardData db uid now).totalBalance =
      (getDashboardData db uid now).totalIncome -
        (getDashboardData db uid now).totalExpenses := rfl

/-- Claim C5: `last30DaysExpenses.transactions` holds exactly the
owner's expense records with `date ≥ now - 30 days` (as a multiset,
via permutation with the filtered collection, and element-wise): a
record dated exactly `now - thirtyDaysMs` passes the `$gte` bound, one
dated `now - thirtyDaysMs - 1` does not. -/
theorem last30DaysExpenses_window_exact (db : Db) (uid : Nat) (now : Int) :
    List.Perm (getDashboardData db uid now).last30DaysExpenses.transactions
        (db.expenses.filter
          (fun r => r.userId == uid && decide (now - thirtyDaysMs ≤ r.date))) ∧
      ∀ r : ExpenseDoc,
        r ∈ (getDashboardData db uid now).last30DaysExpenses.transactions ↔
          (r ∈ db.expenses ∧ r.userId = uid ∧ now - thirtyDaysMs ≤ r.date) := by
  constructor
  · rw [last30_proj]
    exact sortD_perm _ _
  · intro r
    rw [last30_proj]
    show r ∈ sortD _ _ ↔ _
    rw [mem_sortD, List.mem_filter]
    simp [and_assoc]

/-- Claim C6: the dashboard computation is read-only and deterministic:
running it twice on the same store with the same owner and the same
reference instant returns the same summary, and the store is unchanged
by each run. -/
theorem dashboard_two_run_deterministic (db : Db) (uid : Nat) (now : Int) :
    (getDashboardRun db uid now).1 =
        (getDashboardRun (getDashboardRun db uid now).2 uid now).1 ∧
      (getDashboardRun db uid now).2 = db :=
  ⟨rfl, rfl⟩

/-- Claim C4: an owner with zero records of a kind gets exactly `0` for
that kind's total (the `totalIncome[0]?.total || 0` fallback for the
empty aggregation result), the corresponding window is `{total: 0,
transactions: []}`, and with no records at all the whole summary is
the all-zero, all-empty response — the computation is total, never an
error. -/
theorem empty_kind_yields_zero (db : Db) (uid : Nat) (now : Int) :
    (incomesByUser db uid = [] →
        (getDashboardData db uid now).totalIncome = 0 ∧
          (getDashboardData db uid now).last60DaysIncome = ⟨0, []⟩) ∧
      (expensesByUser db uid = [] →
        (getDashboardData db uid now).totalExpenses = 0 ∧
          (getDashboardData db uid now).last30DaysExpenses = ⟨0, []⟩) ∧
      (incomesByUser db uid = [] → expensesByUser db uid = [] →
        getDashboardData db uid now = ⟨0, 0, 0, ⟨0, []⟩, ⟨0, []⟩, []⟩) := by
  have h60 : incomesByUser db uid = [] →
      db.incomes.filter
          (fun r => r.userId == uid && decide (now - sixtyDaysMs ≤ r.date)) =
        [] := by
    intro hI
    rw [filter_and_split, ← incomesByUser_def, hI, List.filter_nil]
  have h30 : expensesByUser db uid = [] →
      db.expenses.filter
          (fun r => r.userId == uid && decide (now - thirtyDaysMs ≤ r.date)) =
        [] := by
    intro hE
    rw [filter_and_split, ← expensesByUser_def, hE, List.filter_nil]
  refine ⟨fun hI => ⟨?_, ?_⟩, fun hE => ⟨?_, ?_⟩, fun hI hE => ?_⟩
  · rw [totalIncome_proj]
    simp [incomeTotalAgg, hI]
  · rw [last60_proj, h60 hI]
    rfl
  · rw [totalExpenses_proj]
    simp [expenseTotalAgg, hE]
  · rw [last30_proj, h30 hE]
    rfl
  · rw [getDashboardData_expand, h60 hI, h30 hE]
    simp [incomeTotalAgg, expenseTotalAgg, hI, hE, sortD]

/-- Store used to witness claim C4: both collections hold only records
of owner 2, so owner 1 has zero records of either kind. -/
def dbOtherOwnerOnly : Db :=
  ⟨[⟨1, 2, none, "Salary", 100, 0⟩], [⟨2, 2, none, "Rent", 50, 0⟩]⟩

theorem empty_kind_yields_zero_witness :
    (getDashboardData dbOtherOwnerOnly 1 0).totalIncome = 0 ∧
      (getDashboardData dbOtherOwnerOnly 1 0).totalExpenses = 0 ∧
      getDashboardData dbOtherOwnerOnly 1 0 = ⟨0, 0, 0, ⟨0, []⟩, ⟨0, []⟩, []⟩ :=
  ⟨((empty_kind_yields_zero dbOtherOwnerOnly 1 0).1 (by decide)).1,
    (((empty_kind_yields_zero dbOtherOwnerOnly 1 0).2.1) (by decide)).1,
    ((empty_kind_yields_zero dbOtherOwnerOnly 1 0).2.2) (by decide) (by decide)⟩

/-- Claim C7: every read and aggregation depends only on the
caller-owner's slice of the store: two stores that agree on owner
`uid`'s records (in order) produce identical dashboard summaries and
identical list responses for `uid` — records of other owners are
invisible to these reads. -/
theorem reads_owner_scoped (db db' : Db) (uid : Nat) (now : Int)
    (hI : incomesByUser db uid = incomesByUser db' uid)
    (hE : expensesByUser db uid = expensesByUser db' uid) :
    getDashboardData db uid now = getDashboardData db' uid now ∧
      getAllIncome db uid = getAllIncome db' uid ∧
      getAllExpense db uid = getAllExpense db' uid := by
  have h60 :
      db.incomes.filter
          (fun r => r.userId == uid && decide (now - sixtyDaysMs ≤ r.date)) =
        db'.incomes.filter
          (fun r => r.userId == uid && decide (now - sixtyDaysMs ≤ r.date)) := by
    rw [filter_and_split, filter_and_split, ← incomesByUser_def,
      ← incomesByUser_def, hI]
  have h30 :
      db.expenses.filter
          (fun r => r.userId == uid && decide (now - thirtyDaysMs ≤ r.date)) =
        db'.expenses.filter
          (fun r => r.userId == uid && decide (now - thirtyDaysMs ≤ r.date)) := by
    rw [filter_and_split, filter_and_split, ← expensesByUser_def,
      ← expensesByUser_def, hE]
  have hAggI : incomeTotalAgg db uid = incomeTotalAgg db' uid := by
    unfold incomeTotalAgg
    rw [hI]
  have hAggE : expenseTotalAgg db uid = expenseTotalAgg db' uid := by
    unfold expenseTotalAgg
    rw [hE]
  refine ⟨?_, ?_, ?_⟩
  · rw [getDashboardData_expand, getDashboardData_expand, h60, h30, hAggI,
      hAggE, hI, hE]
  · unfold getAllIncome
    rw [hI]
  · unfold getAllExpense
    rw [hE]

/-- Stores witnessing claim C7: `dbWithIntruder` extends `dbAlice` with
records owned by user 2; owner 1's reads cannot tell them apart. -/
def dbAlice : Db :=
  ⟨[⟨1, 1, none, "Salary", 100, 10⟩], [⟨2, 1, none, "Rent", 30, 5⟩]⟩

def dbWithIntruder : Db :=
  ⟨[⟨1, 1, none, "Salary", 100, 10⟩, ⟨3, 2, none, "Bonus", 9, 99⟩],
    [⟨2, 1, none, "Rent", 30, 5⟩, ⟨4, 2, none, "Toys", 9, 98⟩]⟩

theorem reads_owner_scoped_witness :
    getDashboardData dbAlice 1 0 = getDashboardData dbWithIntruder 1 0 ∧
      getAllIncome dbAlice 1 = getAllIncome dbWithIntruder 1 ∧
      getAllExpense dbAlice 1 = getAllExpense dbWithIntruder 1 :=
  reads_owner_scoped dbAlice dbWithIntruder 1 0 (by decide) (by decide)

theorem removeIncomeById_not_mem (id : Nat) (l : List IncomeDoc)
    (hU : l.Pairwise (fun a b => a.id ≠ b.id)) :
    ∀ r ∈ removeIncomeById id l, r.id ≠ id := by
  induction l with
  | nil => simp [removeIncomeById]
  | cons x xs ih =>
    rcases List.pairwise_cons.mp hU with ⟨hx, hxs⟩
    unfold removeIncomeById
    by_cases h : x.id = id
    · simp only [h, beq_self_eq_true, if_pos]
      intro r hr
      have := hx r hr
      omega
    · have hb : (x.id == id) = false := beq_eq_false_iff_ne.mpr h
      simp only [hb, Bool.false_eq_true, if_false]
      intro r hr
      rcases List.mem_cons.mp hr with rfl | hr
      · exact h
      · exact ih hxs r hr

theorem removeIncomeById_no_match (id : Nat) (l : List IncomeDoc)
    (h : ∀ r ∈ l, r.id ≠ id) : removeIncomeById id l = l := by
  induction l with
  | nil => rfl
  | cons x xs ih =>
    have hx : (x.id == id) = false :=
      beq_eq_false_iff_ne.mpr (h x (List.mem_cons_self _ _))
    unfold removeIncomeById
    rw [hx]
    simp only [Bool.false_eq_true, if_false]
    rw [ih (fun r hr => h r (List.mem_cons_of_mem _ hr))]

theorem removeExpenseById_not_mem (id : Nat) (l : List ExpenseDoc)
    (hU : l.Pairwise (fun a b => a.id ≠ b.id)) :
    ∀ r ∈ removeExpenseById id l, r.id ≠ id := by
  induction l with
  | nil => simp [removeExpenseById]
  | cons x xs ih =>
    rcases List.pairwise_cons.mp hU with ⟨hx, hxs⟩
    unfold removeExpenseById
    by_cases h : x.id = id
    · simp only [h, beq_self_eq_true, if_pos]
      intro r hr
      have := hx r hr
      omega
    · have hb : (x.id == id) = false := beq_eq_false_iff_ne.mpr h
      simp only [hb, Bool.false_eq_true, if_false]
      intro r hr
      rcases List.mem_cons.mp hr with rfl | hr
      · exact h
      · exact ih hxs r hr

theorem removeExpenseById_no_match (id : Nat) (l : List ExpenseDoc)
    (h : ∀ r ∈ l, r.id ≠ id) : removeExpenseById id l = l := by
  induction l with
  | nil => rfl
  | cons x xs ih =>
    have hx : (x.id == id) = false :=
      beq_eq_false_iff_ne.mpr (h x (List.mem_cons_self _ _))
    unfold removeExpenseById
    rw [hx]
    simp only [Bool.false_eq_true, if_false]
    rw [ih (fun r hr => h r (List.mem_cons_of_mem _ hr))]

/-- Claim C8: `deleteIncome` / `deleteExpense` never consult the
caller: the outcome is identical for any two callers, the matching
record is removed (assuming `_id`s are unique, as Mongo guarantees)
even when its owner differs from the caller, and when no record has
the id the store is untouched and the response is still the success
message. -/
theorem deleteById_unscoped (db : Db) (caller caller' id : Nat)
    (hUI : db.incomes.Pairwise (fun a b => a.id ≠ b.id))
    (hUE : db.expenses.Pairwise (fun a b => a.id ≠ b.id)) :
    deleteIncome db caller id = deleteIncome db caller' id ∧
      (∀ r ∈ (deleteIncome db caller id).1.incomes, r.id ≠ id) ∧
      ((∀ r ∈ db.incomes, r.id ≠ id) →
        deleteIncome db caller id = (db, "Income deleted successfully")) ∧
      deleteExpense db caller id = deleteExpense db caller' id ∧
      (∀ r ∈ (deleteExpense db caller id).1.expenses, r.id ≠ id) ∧
      ((∀ r ∈ db.expenses, r.id ≠ id) →
        deleteExpense db caller id = (db, "Expense deleted successfully")) := by
  refine ⟨rfl, ?_, ?_, rfl, ?_, ?_⟩
  · exact removeIncomeById_not_mem id db.incomes hUI
  · intro h
    unfold deleteIncome
    rw [removeIncomeById_no_match id db.incomes h]
  · exact removeExpenseById_not_mem id db.expenses hUE
  · intro h
    unfold deleteExpense
    rw [removeExpenseById_no_match id db.expenses h]

/-- Store witnessing claim C8: income record 5 belongs to owner 2 and
expense record 6 to owner 3; the caller below is user 1. -/
def dbForeignRecords : Db :=
  ⟨[⟨5, 2, none, "Salary", 100, 0⟩], [⟨6, 3, none, "Rent", 40, 0⟩]⟩

theorem deleteById_unscoped_witness :
    deleteIncome dbForeignRecords 1 5 = deleteIncome dbForeignRecords 3 5 ∧
      deleteIncome dbForeignRecords 1 99 =
        (dbForeignRecords, "Income deleted successfully") ∧
      deleteExpense dbForeignRecords 1 99 =
        (dbForeignRecords, "Expense deleted successfully") :=
  ⟨(deleteById_unscoped dbForeignRecords 1 3 5 (by decide) (by decide)).1,
    (deleteById_unscoped dbForeignRecords 1 3 99 (by decide)
          (by decide)).2.2.1 (by decide),
    (deleteById_unscoped dbForeignRecords 1 3 99 (by decide)
          (by decide)).2.2.2.2.2 (by decide)⟩

/-- The empty store. -/
def dbEmpty : Db := ⟨[], []⟩

/-- Claim C9, as stated, is false at a concrete input: a create request
with `source` and `amount` present but no `date` is answered with the
400 "All fields are required" rejection — no record is stored with a
defaulted date. -/
theorem create_missing_date_claim_cex :
    (addIncome dbEmpty 1 7 ⟨none, some "Salary", some 100, none⟩).isOk =
        false ∧
      addIncome dbEmpty 1 7 ⟨none, some "Salary", some 100, none⟩ =
        .badRequest "All fields are required" := by
  decide

/-- Claim C9 (amended): every create request without `occurredOn`
(`date`) is rejected by the controller's `if (!source || !amount ||
!date)` check with the missing-fields validation error; the
`default: Date.now` of the Mongoose schema is unreachable through the
create endpoints. -/
theorem create_missing_date_rejected (db : Db) (uid fid : Nat)
    (icon s c : Option String) (a : Option Int) :
    addIncome db uid fid ⟨icon, s, a, none⟩ =
        .badRequest "All fields are required" ∧
      addExpense db uid fid ⟨icon, c, a, none⟩ =
        .badRequest "All fields are required" := by
  constructor <;> simp [addIncome, addExpense, truthyDate]

/-- Claim C10: create acceptance is decided purely by JS truthiness of
the destructured fields: a strictly negative `amount` (with the other
fields present) is accepted and persisted unchanged, while `amount`
exactly `0` is falsy and is rejected with the same missing-fields
error, for both kinds. -/
theorem create_truthiness_validation (db : Db) (uid fid : Nat)
    (icon : Option String) (s c : String) (a d : Int)
    (hs : s ≠ "") (hc : c ≠ "") (ha : a < 0) :
    addIncome db uid fid ⟨icon, some s, some a, some d⟩ =
        .ok ⟨fid, uid, icon, s, a, d⟩
          { db with incomes := db.incomes ++ [⟨fid, uid, icon, s, a, d⟩] } ∧
      addIncome db uid fid ⟨icon, some s, some 0, some d⟩ =
        .badRequest "All fields are required" ∧
      addExpense db uid fid ⟨icon, some c, some a, some d⟩ =
        .ok ⟨fid, uid, icon, c, a, d⟩
          { db with expenses := db.expenses ++ [⟨fid, uid, icon, c, a, d⟩] } ∧
      addExpense db uid fid ⟨icon, some c, some 0, some d⟩ =
        .badRequest "All fields are required" := by
  have ha0 : a ≠ 0 := ne_of_lt ha
  refine ⟨?_, ?_, ?_, ?_⟩
  · simp [addIncome, truthyStr, truthyNum, truthyDate, hs, ha0]
  · simp [addIncome, truthyStr, truthyNum, truthyDate, hs]
  · simp [addExpense, truthyStr, truthyNum, truthyDate, hc, ha0]
  · simp [addExpense, truthyStr, truthyNum, truthyDate, hc]

theorem create_truthiness_validation_witness :
    addIncome dbEmpty 1 7 ⟨none, some "Salary", some (-50), some 3⟩ =
        .ok ⟨7, 1, none, "Salary", -50, 3⟩
          ⟨[⟨7, 1, none, "Salary", -50, 3⟩], []⟩ ∧
      addIncome dbEmpty 1 7 ⟨none, some "Salary", some 0, some 3⟩ =
        .badRequest "All fields are required" ∧
      addExpense dbEmpty 1 7 ⟨none, some "Rent", some (-50), some 3⟩ =
        .ok ⟨7, 1, none, "Rent", -50, 3⟩
          ⟨[], [⟨7, 1, none, "Rent", -50, 3⟩]⟩ ∧
      addExpense dbEmpty 1 7 ⟨none, some "Rent", some 0, some 3⟩ =
        .badRequest "All fields are required" :=
  create_truthiness_validation dbEmpty 1 7 none "Salary" "Rent" (-50) 3
    (by decide) (by decide) (by decide)

end Claims

end ExpenseTracker
